import Mathlib

/-!
  Verification of the multi-keychain wallet core: the descriptor registry
  (`KeyRing`), its changeset/merge protocol, the wallet stage persistence
  logic, and the transaction builder's coin selection and assembly.

  The embedding follows `src/multi_keychain/{keyring,changeset,wallet,
  tx_builder}.rs`. External crates (`miniscript`, `bitcoin`, `bdk_chain`,
  `rusqlite`) are modelled by their observable behaviour at the call sites
  the wallet code uses: a descriptor is represented by the observables the
  registry consults (`is_multipath`, `descriptor_id`, whether
  `at_derivation_index 0` succeeds, the branch list produced by
  `into_single_descriptors`); `BTreeMap` is represented by Mathlib's
  `Finmap` (key-canonical, extensional, with `insert` replacing on key
  collision exactly as `BTreeMap::insert` does); amounts are `Nat`
  satoshis; the SQLite transaction is an oracle telling which of the three
  fallible database steps succeed.
-/

namespace MultiKeychain

/-- Model of `bitcoin::Network` (the variants of the upstream enum). -/
inductive Network where
  | bitcoin
  | testnet
  | testnet4
  | signet
  | regtest
deriving DecidableEq, Repr

/-- Model of `KeyRingError` from `errors.rs`, variant for variant. -/
inductive KeyRingError where
  | DuplicateDescriptor
  | MultipathDescriptorNotAllowed
  | SingleDescriptorNotAllowed
  | NetworkMismatch (expected found : Network)
  | EmptyKeyRing
  | KeychainNotFound
  | DescriptorParsing
  | AddressGeneration
deriving DecidableEq, Repr

/-- Model of `PersistenceError` from `errors.rs`. -/
inductive PersistenceError where
  | Database
  | Serialization
  | Deserialization
  | FileSystem
  | DataCorruption
deriving DecidableEq, Repr

/-- Model of `TxBuilderError` from `errors.rs`. -/
inductive TxBuilderError where
  | NoRecipients
  | InsufficientFunds (required available : Nat)
  | NoUtxos
  | FeeTooLow
  | FeeTooHigh
  | DustOutput
  | InvalidRecipient
  | PsbtCreation
deriving DecidableEq, Repr

/-- Model of `SigningError` from `errors.rs`. -/
inductive SigningError where
  | MissingPrivateKey
  | InvalidSignature
  | AlreadyFinalized
  | SigningFailed
  | InputNotFound
deriving DecidableEq, Repr

/-- Model of `AddressGenerationError` from `errors.rs`. -/
inductive AddressGenerationError where
  | DerivationLimit
  | KeychainNotFound
  | Descriptor
  | NetworkIncompatible
deriving DecidableEq, Repr

/-- Model of the umbrella `WalletError` from `errors.rs`. -/
inductive WalletError where
  | KeyRing (e : KeyRingError)
  | Persistence (e : PersistenceError)
  | TxBuilder (e : TxBuilderError)
  | Signing (e : SigningError)
  | AddressGeneration (e : AddressGenerationError)
deriving DecidableEq, Repr

/-- Observables of one single-path descriptor produced by
`miniscript::Descriptor::into_single_descriptors`: its content-derived
identifier (`DescriptorExt::descriptor_id`, a hash of the canonical
encoding, modelled as an opaque `Nat`) and whether
`at_derivation_index 0` succeeds on it. -/
structure SingleDesc where
  did : Nat
  derive0 : Bool
deriving DecidableEq, Repr

/-- Model of `miniscript::Descriptor<DescriptorPublicKey>` restricted to
the observables the wallet code consults: `is_multipath`, the content
identifier, whether `at_derivation_index 0` succeeds, and the result of
`into_single_descriptors` (`none` models the fallible decomposition
failing, which the registry maps to `DescriptorParsing`). -/
structure Descriptor where
  isMultipath : Bool
  did : Nat
  derive0 : Bool
  decompose : Option (List SingleDesc)
deriving DecidableEq, Repr

/-- View a decomposed single-path branch as a stored descriptor. -/
def SingleDesc.toDescriptor (b : SingleDesc) : Descriptor :=
  { isMultipath := false, did := b.did, derive0 := b.derive0, decompose := some [b] }

/-- The registry's `BTreeMap<K, Descriptor<DescriptorPublicKey>>`, as a
key-canonical finite map. -/
abbrev DescMap (K : Type) := Finmap fun _ : K => Descriptor

/-- Model of `KeyRing<K>` from `keyring.rs`. The `secp` field (a stateless
secp256k1 context object used only to parse descriptors) carries no
observable state and is omitted. -/
@[ext]
structure KeyRing (K : Type) where
  network : Network
  descriptors : DescMap K
deriving DecidableEq

/-- `KeyRing::new(network)`: empty descriptor map. -/
def KeyRing.new (network : Network) : KeyRing K :=
  { network := network, descriptors := ∅ }

variable {K : Type} [DecidableEq K]

/-- `KeyRing::add_descriptor_validated` from `keyring.rs`. The
`into_wallet_descriptor` conversion of the raw input happens before any
check; the embedding takes the converted descriptor as input (a conversion
failure returns `DescriptorParsing` before any state is touched). Returns
the `Result` paired with the post-state of `&mut self`. -/
def KeyRing.add_descriptor_validated (kr : KeyRing K) (keychain : K)
    (descriptor : Descriptor) : Option KeyRingError × KeyRing K :=
  if descriptor.isMultipath then
    (some KeyRingError.MultipathDescriptorNotAllowed, kr)
  else if keychain ∈ kr.descriptors then
    (some KeyRingError.DuplicateDescriptor, kr)
  else if !descriptor.derive0 then
    (some KeyRingError.AddressGeneration, kr)
  else
    (none, { kr with descriptors := kr.descriptors.insert keychain descriptor })

/-- `KeyRing::add_descriptor` from `keyring.rs` (unvalidated): panics via
`expect`/`assert!` on a conversion failure or a multipath descriptor
(modelled as `none`); otherwise inserts unconditionally
(`BTreeMap::insert` replaces any existing binding). -/
def KeyRing.add_descriptor (kr : KeyRing K) (keychain : K)
    (descriptor : Descriptor) : Option (KeyRing K) :=
  if descriptor.isMultipath then
    none
  else
    some { kr with descriptors := kr.descriptors.insert keychain descriptor }

/-- The insertion loop body of `KeyRing::add_multipath_descriptor_validated`
from `keyring.rs`: for every decomposed branch in order, fail
`DuplicateDescriptor` if its content identifier is already a key, fail
`AddressGeneration` if it cannot derive at index 0, else insert it and
continue. The error cases return the state as mutated so far. -/
def KeyRing.addBranchesValidated (kr : KeyRing Nat) :
    List SingleDesc → Option KeyRingError × KeyRing Nat
  | [] => (none, kr)
  | b :: rest =>
    if b.did ∈ kr.descriptors then
      (some KeyRingError.DuplicateDescriptor, kr)
    else if !b.derive0 then
      (some KeyRingError.AddressGeneration, kr)
    else
      KeyRing.addBranchesValidated
        { kr with descriptors := kr.descriptors.insert b.did b.toDescriptor } rest

/-- `KeyRing::<Did>::add_multipath_descriptor_validated` from `keyring.rs`:
requires a multipath descriptor, decomposes it with
`into_single_descriptors` (failure maps to `DescriptorParsing`), then runs
the per-branch validation/insertion loop. `Did` is modelled as `Nat`. -/
def KeyRing.add_multipath_descriptor_validated (kr : KeyRing Nat)
    (descriptor : Descriptor) : Option KeyRingError × KeyRing Nat :=
  if !descriptor.isMultipath then
    (some KeyRingError.SingleDescriptorNotAllowed, kr)
  else
    match descriptor.decompose with
    | none => (some KeyRingError.DescriptorParsing, kr)
    | some branches => KeyRing.addBranchesValidated kr branches

/-- Model of `keyring::ChangeSet<K>` from `keyring.rs`. -/
@[ext]
structure KChangeSet (K : Type) where
  network : Option Network
  descriptors : DescMap K
deriving DecidableEq

/-- `Default for ChangeSet<K>`: no network, empty map. -/
def KChangeSet.default : KChangeSet K :=
  { network := none, descriptors := ∅ }

/-- `Merge::merge for keyring::ChangeSet<K>`: keep `self.network` unless it
is `None`; `self.descriptors.extend(other.descriptors)` inserts every
entry of `other`, overwriting on key collision, i.e. the right-biased
union — `other.descriptors ∪ self.descriptors` in Mathlib's left-biased
`Finmap.union`. -/
def KChangeSet.merge (self other : KChangeSet K) : KChangeSet K :=
  { network := match self.network with
      | none => other.network
      | some n => some n
    descriptors := other.descriptors ∪ self.descriptors }

/-- `Merge::is_empty for keyring::ChangeSet<K>`. -/
def KChangeSet.is_empty (cs : KChangeSet K) : Bool :=
  cs.network.isNone && cs.descriptors == ∅

/-- `KeyRing::initial_changeset`: full snapshot of network and map. -/
def KeyRing.initial_changeset (kr : KeyRing K) : KChangeSet K :=
  { network := some kr.network, descriptors := kr.descriptors }

/-- `KeyRing::from_changeset`: reconstructs, `None` when the changeset has
no network (the `changeset.network?` early return). -/
def KeyRing.from_changeset (cs : KChangeSet K) : Option (KeyRing K) :=
  match cs.network with
  | none => none
  | some n => some { network := n, descriptors := cs.descriptors }

/-- The net effect on the descriptor map of inserting a list of decomposed
branches in order, each keyed by its content identifier. -/
def insertBranches (m : DescMap Nat) (bs : List SingleDesc) : DescMap Nat :=
  bs.foldl (fun acc b => acc.insert b.did b.toDescriptor) m

/-- Model of the aggregate `ChangeSet<K>` from `changeset.rs`. The three
sub-deltas of the external `bdk_chain` collaborators (`local_chain`,
`tx_graph`, `indexer`) are modelled as opaque record bags: the wallet code
under verification observes them only through `is_empty` (empty bag) and
field-wise merge. -/
structure AggChangeSet (K : Type) where
  keyring : KChangeSet K
  local_chain : List Nat
  tx_graph : List Nat
  indexer : List Nat
deriving DecidableEq

/-- `Default for ChangeSet<K>` in `changeset.rs`: every field default. -/
def AggChangeSet.default : AggChangeSet K :=
  { keyring := KChangeSet.default, local_chain := [], tx_graph := [], indexer := [] }

/-- `Merge::is_empty for ChangeSet<K>` in `changeset.rs`: conjunction of
the four sub-deltas' emptiness. -/
def AggChangeSet.is_empty (cs : AggChangeSet K) : Bool :=
  cs.keyring.is_empty && cs.local_chain.isEmpty && cs.tx_graph.isEmpty
    && cs.indexer.isEmpty

/-- `bdk_chain::Merge::take`, as used by `persist_to_sqlite`: `None` when
empty, else `Some(mem::take(self))`, resetting `self` to default. Returns
the result paired with the post-state. -/
def AggChangeSet.take (cs : AggChangeSet K) :
    Option (AggChangeSet K) × AggChangeSet K :=
  if cs.is_empty then (none, cs) else (some cs, AggChangeSet.default)

/-- Model of `Wallet<K>` from `wallet.rs` restricted to the state
`persist_to_sqlite` can touch: the registry and the stage. The chain view
and indexed graph are external collaborator state that `persist_to_sqlite`
never accesses. -/
@[ext]
structure Wallet (K : Type) where
  keyring : KeyRing K
  stage : AggChangeSet K
deriving DecidableEq

/-- Model of `rusqlite::Error` (opaque external database error). -/
inductive SqliteError where
  | database
deriving DecidableEq, Repr

/-- `Wallet::persist_to_sqlite` from `wallet.rs`. The three fallible
database steps — `conn.transaction()`, `changeset.persist_to_sqlite(&tx)`
and `tx.commit()` — are oracles (`txBeginOk`, `persistOk`, `commitOk`).
Returns the `rusqlite::Result`, the post-state of `&mut self`, and whether
any write statement was issued to the database. Mirrors the source: the
guard is `staged_changeset()` (`None` when the stage is empty, skipping
the whole write), and `ret = self.stage.take()` runs only after a
successful commit. -/
def Wallet.persist_to_sqlite (w : Wallet K) (txBeginOk persistOk commitOk : Bool) :
    Except SqliteError (Option (AggChangeSet K)) × Wallet K × Bool :=
  if !txBeginOk then
    (Except.error SqliteError.database, w, false)
  else if w.stage.is_empty then
    (Except.ok none, w, false)
  else if !persistOk then
    (Except.error SqliteError.database, w, true)
  else if !commitOk then
    (Except.error SqliteError.database, w, true)
  else
    let (ret, stage') := w.stage.take
    (Except.ok ret, { w with stage := stage' }, true)

/-- A script or address, opaque to the builder logic (`ScriptBuf` /
`Address::script_pubkey` are external `bitcoin` types). -/
abbrev Script := Nat

/-- Model of `bitcoin::OutPoint`: `(txid, vout)`, txid opaque. -/
abbrev ModelOutPoint := Nat × Nat

/-- Model of `bitcoin::TxOut`: value in satoshis plus script. -/
structure ModelTxOut where
  value : Nat
  script_pubkey : Script
deriving DecidableEq, Repr

/-- Model of `LocalUtxo<K>` from `tx_builder.rs` (the candidate UTXO the
builder selects over); `txout` is flattened into `value`/`script`. -/
structure LocalUtxo (K : Type) where
  outpoint : ModelOutPoint
  value : Nat
  script : Script
  keychain : K
  derivation_index : Nat
deriving DecidableEq, Repr

/-- The builder configuration accumulated by `TxBuilder`'s fluent setters
before `finish`: recipients as `(script, amount)` pairs, the drain flag,
the preferred keychain and explicit UTXO list (the last two do not affect
the functions verified here: candidates are passed in post-filter, and the
explicit list is never consulted by selection). The fee rate is modelled by
a fee function `feeVb : Nat → Nat` standing for the external
`FeeRate::fee_vb`, passed separately. -/
structure TxBuilderCfg where
  recipients : List (Script × Nat)
  drain_wallet : Bool
deriving DecidableEq, Repr

/-- `TxBuilder::estimate_tx_size` from `tx_builder.rs`: fixed linear
model, base 10 plus 148 per input plus 34 per output. -/
def estimate_tx_size (inputs outputs : Nat) : Nat :=
  10 + inputs * 148 + outputs * 34

/-- Stable descending insertion by `txout.value`: the element is placed
after every earlier element of strictly larger or equal value. -/
def insDesc (u : LocalUtxo K) : List (LocalUtxo K) → List (LocalUtxo K)
  | [] => [u]
  | v :: rest =>
    if u.value < v.value || u.value == v.value then v :: insDesc u rest
    else u :: v :: rest

/-- Model of `utxos.sort_by(|a, b| b.txout.value.cmp(&a.txout.value))`:
Rust's stable sort, descending by value. A stable sort's output is
uniquely determined by the comparator, so the structurally recursive
insertion sort below is extensionally the source's sort. -/
def sortDescByValue : List (LocalUtxo K) → List (LocalUtxo K)
  | [] => []
  | u :: rest => insDesc u (sortDescByValue rest)

/-- The accumulation loop of `TxBuilder::select_coins`: push each UTXO in
order, recompute the fee estimate for the shape of the coins selected so
far and the recipient count, and stop as soon as the running total covers
target plus fee. Returns the selected list and its total value. -/
def selectLoop (feeVb : Nat → Nat) (nRecipients target : Nat) :
    List (LocalUtxo K) → List (LocalUtxo K) → Nat → List (LocalUtxo K) × Nat
  | [], selected, selectedValue => (selected, selectedValue)
  | u :: rest, selected, selectedValue =>
    let selected' := selected ++ [u]
    let selectedValue' := selectedValue + u.value
    let fee := feeVb (estimate_tx_size selected'.length nRecipients)
    if target + fee ≤ selectedValue' then (selected', selectedValue')
    else selectLoop feeVb nRecipients target rest selected' selectedValue'

/-- `TxBuilder::select_coins` from `tx_builder.rs`: `NoUtxos` when the
candidate list is empty; sort descending by value; in drain mode take
everything; otherwise accumulate greedily and fail
`InsufficientFunds{required, available}` when the total never covers
target plus the final fee estimate. -/
def select_coins (cfg : TxBuilderCfg) (feeVb : Nat → Nat)
    (utxos : List (LocalUtxo K)) : Except WalletError (List (LocalUtxo K)) :=
  if utxos.isEmpty then
    Except.error (WalletError.TxBuilder TxBuilderError.NoUtxos)
  else
    let sorted := sortDescByValue utxos
    if cfg.drain_wallet then Except.ok sorted
    else
      let target := (cfg.recipients.map fun r => r.2).sum
      let (selected, selectedValue) :=
        selectLoop feeVb cfg.recipients.length target sorted [] 0
      let finalFee := feeVb (estimate_tx_size selected.length cfg.recipients.length)
      if selectedValue < target + finalFee then
        Except.error (WalletError.TxBuilder
          (TxBuilderError.InsufficientFunds (target + finalFee) selectedValue))
      else Except.ok selected

/-- The assembled unsigned transaction of `create_psbt`: version 2, zero
locktime, one input per selected coin (empty script_sig, RBF sequence,
empty witness — so `Psbt::from_unsigned_tx` cannot reject it), and the
output list. Inputs are represented by their outpoints. -/
structure ModelTx where
  version : Nat
  lock_time : Nat
  inputs : List ModelOutPoint
  outputs : List ModelTxOut
deriving DecidableEq, Repr

/-- Model of `TransactionDetails` from `tx_builder.rs`; the `txid` field
(an external hash of the assembled transaction) is omitted. Amount
subtraction is `Nat` truncated subtraction; the claims verified here keep
it in the non-truncating range. -/
structure ModelTxDetails where
  sent : Nat
  received : Nat
  fee : Option Nat
deriving DecidableEq, Repr

/-- `TxBuilder::create_psbt` from `tx_builder.rs`. `reveal` models
`wallet.reveal_next_address(keychain)` restricted to its observable used
here — the revealed script, `none` when the keychain is unknown (the
staging side effect of a reveal does not touch the builder outputs).
In drain mode one output pays the first recipient the whole selected value
minus fee (no output at all if there are no recipients); otherwise one
output per recipient, plus a change output exactly when the leftover
exceeds the 546 dust floor and a change script is obtained for the
keychain owning the first selected coin. `Psbt::from_unsigned_tx` accepts
every transaction built here (all script_sigs and witnesses are empty),
so the `PsbtCreation` error path is unreachable and the result is pure. -/
def create_psbt (cfg : TxBuilderCfg) (feeVb : Nat → Nat)
    (reveal : K → Option Script) (selected : List (LocalUtxo K)) :
    ModelTx × ModelTxDetails :=
  let selectedValue := (selected.map fun u => u.value).sum
  let targetValue := (cfg.recipients.map fun r => r.2).sum
  let estimatedFee := feeVb (estimate_tx_size selected.length cfg.recipients.length)
  let inputs := selected.map fun u => u.outpoint
  let outputs :=
    if cfg.drain_wallet then
      match cfg.recipients.head? with
      | some r => [{ value := selectedValue - estimatedFee, script_pubkey := r.1 }]
      | none => []
    else
      let base := cfg.recipients.map fun r =>
        ({ value := r.2, script_pubkey := r.1 } : ModelTxOut)
      let change := selectedValue - targetValue - estimatedFee
      if 546 < change then
        match selected.head? with
        | some u =>
          match reveal u.keychain with
          | some s => base ++ [{ value := change, script_pubkey := s }]
          | none => base
        | none => base
      else base
  let tx : ModelTx := { version := 2, lock_time := 0, inputs := inputs, outputs := outputs }
  let details : ModelTxDetails :=
    { sent := if cfg.drain_wallet then selectedValue - estimatedFee else targetValue
      received := 0
      fee := some estimatedFee }
  (tx, details)

/-- `TxBuilder::finish` from `tx_builder.rs`: `NoRecipients` when the
recipient list is empty and the drain flag is unset; then the candidates
returned by `get_available_utxos` (passed in, since chain and graph are
external collaborators) go through `select_coins` and `create_psbt`. The
default fee rate (1 sat/vb when none is set) is part of the `feeVb`
parameter. -/
def TxBuilder.finish (cfg : TxBuilderCfg) (feeVb : Nat → Nat)
    (reveal : K → Option Script) (candidates : List (LocalUtxo K)) :
    Except WalletError (ModelTx × ModelTxDetails) :=
  if cfg.recipients.isEmpty && !cfg.drain_wallet then
    Except.error (WalletError.TxBuilder TxBuilderError.NoRecipients)
  else
    match select_coins cfg feeVb candidates with
    | Except.error e => Except.error e
    | Except.ok selected => Except.ok (create_psbt cfg feeVb reveal selected)

/-! ## Concrete fixtures used by counterexamples and witnesses -/

/-- A valid single-path descriptor with content identifier 100. -/
def dSingleA : Descriptor :=
  { isMultipath := false, did := 100, derive0 := true, decompose := some [⟨100, true⟩] }

/-- A different valid single-path descriptor with content identifier 101. -/
def dSingleB : Descriptor :=
  { isMultipath := false, did := 101, derive0 := true, decompose := some [⟨101, true⟩] }

/-- First branch of the sample multipath descriptor. -/
def branch1 : SingleDesc := { did := 1, derive0 := true }

/-- Second branch of the sample multipath descriptor. -/
def branch2 : SingleDesc := { did := 2, derive0 := true }

/-- A two-branch multipath descriptor decomposing into `branch1, branch2`. -/
def dMulti : Descriptor :=
  { isMultipath := true, did := 50, derive0 := true, decompose := some [branch1, branch2] }

/-- A keyring that already holds `branch2`'s content identifier as a key
(as happens when that single-path descriptor was registered earlier). -/
def krWithB2 : KeyRing Nat :=
  { network := Network.signet
    descriptors := (∅ : DescMap Nat).insert branch2.did branch2.toDescriptor }

/-- Keyring changeset binding key 0 to `dSingleA`. -/
def csA : KChangeSet Nat :=
  { network := none, descriptors := (∅ : DescMap Nat).insert 0 dSingleA }

/-- Keyring changeset binding the same key 0 to `dSingleB`. -/
def csB : KChangeSet Nat :=
  { network := none, descriptors := (∅ : DescMap Nat).insert 0 dSingleB }

/-- Candidate UTXO worth 100 000 sats. -/
def u100 : LocalUtxo Nat :=
  { outpoint := (1, 0), value := 100000, script := 10, keychain := 0, derivation_index := 0 }

/-- Candidate UTXO worth 50 000 sats. -/
def u50 : LocalUtxo Nat :=
  { outpoint := (2, 0), value := 50000, script := 11, keychain := 0, derivation_index := 1 }

/-- Candidate UTXO worth 10 000 sats. -/
def u10 : LocalUtxo Nat :=
  { outpoint := (3, 0), value := 10000, script := 12, keychain := 0, derivation_index := 2 }

/-- Builder configuration with one recipient asking 120 000 sats. -/
def cfgC3 : TxBuilderCfg := { recipients := [(77, 120000)], drain_wallet := false }

/-- Builder configuration with one recipient and the drain flag set. -/
def cfgC6 : TxBuilderCfg := { recipients := [(77, 123)], drain_wallet := true }

/-- A reveal oracle that always yields change script 88. -/
def revealAlways : Nat → Option Script := fun _ => some 88

/-- A wallet with a non-empty stage (the genesis registry snapshot). -/
def w0 : Wallet Nat :=
  { keyring := KeyRing.new Network.bitcoin
    stage :=
      { keyring := { network := some Network.bitcoin, descriptors := ∅ }
        local_chain := []
        tx_graph := []
        indexer := [] } }

/-! ## Theorems -/

/-- C4: reconstructing a keyring from its own `initial_changeset` gives
back an identical keyring (same network, same descriptor map), and
`from_changeset` returns `none` exactly when the changeset's network is
unset, regardless of the descriptor map. -/
theorem c4_from_changeset_roundtrip (kr : KeyRing K) (cs : KChangeSet K) :
    KeyRing.from_changeset kr.initial_changeset = some kr ∧
    (KeyRing.from_changeset cs = none ↔ cs.network = none) := by
  refine ⟨rfl, ?_⟩
  cases h : cs.network <;> simp [KeyRing.from_changeset, h]

/-- C10: merging any changeset into one whose network is already `some n`
leaves the network equal to `some n` — the first recorded network wins. -/
theorem c10_network_first_wins (a b : KChangeSet K) (n : Network)
    (h : a.network = some n) : (a.merge b).network = some n := by
  simp [KChangeSet.merge, h]

/-- Witness for C10 at concrete changesets carrying different networks. -/
theorem c10_network_first_wins_witness :
    (KChangeSet.merge
        { network := some Network.bitcoin, descriptors := (∅ : DescMap Nat) }
        { network := some Network.regtest, descriptors := (∅ : DescMap Nat) }).network
      = some Network.bitcoin :=
  c10_network_first_wins _ _ Network.bitcoin rfl

/-- C8: with keychain `k` already bound, the unvalidated `add_descriptor`
with a valid single-path descriptor neither panics nor errors: it returns
the keyring with `k` silently rebound to the new descriptor and every
other binding untouched. -/
theorem c8_add_descriptor_overwrites (kr : KeyRing K) (k : K) (d2 : Descriptor)
    (hb : k ∈ kr.descriptors) (hm : d2.isMultipath = false) :
    kr.add_descriptor k d2
        = some { kr with descriptors := kr.descriptors.insert k d2 } ∧
    ∀ kr', kr.add_descriptor k d2 = some kr' →
      kr'.descriptors.lookup k = some d2 ∧
      ∀ k', k' ≠ k → kr'.descriptors.lookup k' = kr.descriptors.lookup k' := by
  have hres : kr.add_descriptor k d2
      = some { kr with descriptors := kr.descriptors.insert k d2 } := by
    simp [KeyRing.add_descriptor, hm]
  refine ⟨hres, fun kr' hkr' => ?_⟩
  rw [hres] at hkr'
  cases hkr'
  exact ⟨Finmap.lookup_insert _, fun k' hne => Finmap.lookup_insert_of_ne _ hne⟩

/-- Witness for C8: key 0 bound to `dSingleA` is silently rebound to
`dSingleB`. -/
theorem c8_add_descriptor_overwrites_witness :
    ({ network := Network.bitcoin
       descriptors := (∅ : DescMap Nat).insert 0 dSingleA } : KeyRing Nat).add_descriptor
        0 dSingleB
      = some { network := Network.bitcoin
               descriptors := ((∅ : DescMap Nat).insert 0 dSingleA).insert 0 dSingleB } :=
  (c8_add_descriptor_overwrites _ 0 dSingleB (by decide) rfl).1

/-- C5: `add_descriptor_validated` fails `MultipathDescriptorNotAllowed` on
a multipath input, `DuplicateDescriptor` on an already-present keychain id,
`AddressGeneration` when the descriptor cannot derive at index 0, and on
every error path the keyring — in particular the prior binding — is
exactly what it was before the call. -/
theorem c5_add_descriptor_validated_errors (kr : KeyRing K) (k : K) (d : Descriptor) :
    (d.isMultipath = true →
      kr.add_descriptor_validated k d
        = (some KeyRingError.MultipathDescriptorNotAllowed, kr)) ∧
    (d.isMultipath = false → k ∈ kr.descriptors →
      kr.add_descriptor_validated k d
        = (some KeyRingError.DuplicateDescriptor, kr)) ∧
    (d.isMultipath = false → k ∉ kr.descriptors → d.derive0 = false →
      kr.add_descriptor_validated k d
        = (some KeyRingError.AddressGeneration, kr)) ∧
    (∀ e kr', kr.add_descriptor_validated k d = (some e, kr') → kr' = kr) := by
  refine ⟨fun hm => by simp [KeyRing.add_descriptor_validated, hm],
          fun hm hmem => by simp [KeyRing.add_descriptor_validated, hm, hmem],
          fun hm hmem hd => by simp [KeyRing.add_descriptor_validated, hm, hmem, hd],
          fun e kr' h => ?_⟩
  unfold KeyRing.add_descriptor_validated at h
  split at h
  · cases h; rfl
  · split at h
    · cases h; rfl
    · split at h
      · cases h; rfl
      · cases h

/-- Witness for C5 at concrete inputs: the duplicate case on `krWithB2`
and the multipath case. -/
theorem c5_add_descriptor_validated_errors_witness :
    krWithB2.add_descriptor_validated branch2.did dSingleA
      = (some KeyRingError.DuplicateDescriptor, krWithB2) ∧
    krWithB2.add_descriptor_validated 7 dMulti
      = (some KeyRingError.MultipathDescriptorNotAllowed, krWithB2) :=
  ⟨(c5_add_descriptor_validated_errors krWithB2 branch2.did dSingleA).2.1 rfl (by decide),
   (c5_add_descriptor_validated_errors krWithB2 7 dMulti).1 rfl⟩

/-- C1 counterexample: on `krWithB2` (which already holds the second
branch's content identifier) the validated multipath add fails
`DuplicateDescriptor`, yet the descriptor map is NOT what it was before
the call — the first branch has been inserted and left behind, so the
batch is not all-or-nothing. -/
theorem c1_partial_insertion_counterexample :
    (krWithB2.add_multipath_descriptor_validated dMulti).1
        = some KeyRingError.DuplicateDescriptor ∧
    (krWithB2.add_multipath_descriptor_validated dMulti).2.descriptors
        ≠ krWithB2.descriptors := by
  decide

/-- Case characterization of the branch insertion loop: on success every
branch has been inserted; on failure the error is `DuplicateDescriptor` or
`AddressGeneration` and the map has been extended by exactly the prefix of
branches processed before the failing one. The network never changes. -/
theorem addBranchesValidated_cases (bs : List SingleDesc) (kr : KeyRing Nat) :
    ((kr.addBranchesValidated bs).1 = none ∧
      (kr.addBranchesValidated bs).2.descriptors = insertBranches kr.descriptors bs ∧
      (kr.addBranchesValidated bs).2.network = kr.network) ∨
    (∃ e n, (kr.addBranchesValidated bs).1 = some e ∧
      (e = KeyRingError.DuplicateDescriptor ∨ e = KeyRingError.AddressGeneration) ∧
      (kr.addBranchesValidated bs).2.descriptors
          = insertBranches kr.descriptors (bs.take n) ∧
      (kr.addBranchesValidated bs).2.network = kr.network) := by
  induction bs generalizing kr with
  | nil => exact Or.inl ⟨rfl, rfl, rfl⟩
  | cons b rest ih =>
    by_cases hmem : b.did ∈ kr.descriptors
    · refine Or.inr ⟨KeyRingError.DuplicateDescriptor, 0, ?_, Or.inl rfl, ?_, ?_⟩ <;>
        simp [KeyRing.addBranchesValidated, hmem, insertBranches]
    · by_cases hd : b.derive0
      · have hstep : kr.addBranchesValidated (b :: rest)
            = KeyRing.addBranchesValidated
                { kr with descriptors := kr.descriptors.insert b.did b.toDescriptor }
                rest := by
          simp [KeyRing.addBranchesValidated, hmem, hd]
        rcases ih { kr with descriptors := kr.descriptors.insert b.did b.toDescriptor } with
          ⟨h1, h2, h3⟩ | ⟨e, n, h1, he, h2, h3⟩
        · exact Or.inl ⟨hstep ▸ h1, hstep ▸ h2, hstep ▸ h3⟩
        · exact Or.inr ⟨e, n + 1, hstep ▸ h1, he, hstep ▸ h2, hstep ▸ h3⟩
      · refine Or.inr ⟨KeyRingError.AddressGeneration, 0, ?_, Or.inr rfl, ?_, ?_⟩ <;>
        simp [KeyRing.addBranchesValidated, hmem, hd, insertBranches]

/-- C1 amended: `add_multipath_descriptor_validated` fails
`SingleDescriptorNotAllowed` on a non-multipath input with the keyring
fully unchanged, fails `DescriptorParsing` on a failed decomposition with
the keyring fully unchanged, and otherwise either succeeds (inserting
every decomposed branch) or fails `DuplicateDescriptor` or
`AddressGeneration` with the map extended by exactly the branches
processed before the failing one — insertion is per-branch, not
all-or-nothing, so an error may leave a proper prefix of the batch
inserted (the network is never altered). -/
theorem c1_add_multipath_descriptor_validated_amended (kr : KeyRing Nat)
    (d : Descriptor) :
    (d.isMultipath = false →
      kr.add_multipath_descriptor_validated d
        = (some KeyRingError.SingleDescriptorNotAllowed, kr)) ∧
    (d.isMultipath = true → d.decompose = none →
      kr.add_multipath_descriptor_validated d
        = (some KeyRingError.DescriptorParsing, kr)) ∧
    (∀ bs, d.isMultipath = true → d.decompose = some bs →
      (((kr.add_multipath_descriptor_validated d).1 = none ∧
        (kr.add_multipath_descriptor_validated d).2.descriptors
            = insertBranches kr.descriptors bs ∧
        (kr.add_multipath_descriptor_validated d).2.network = kr.network) ∨
      (∃ e n, (kr.add_multipath_descriptor_validated d).1 = some e ∧
        (e = KeyRingError.DuplicateDescriptor ∨ e = KeyRingError.AddressGeneration) ∧
        (kr.add_multipath_descriptor_validated d).2.descriptors
            = insertBranches kr.descriptors (bs.take n) ∧
        (kr.add_multipath_descriptor_validated d).2.network = kr.network))) := by
  refine ⟨fun hm => by simp [KeyRing.add_multipath_descriptor_validated, hm],
          fun hm hdec => by simp [KeyRing.add_multipath_descriptor_validated, hm, hdec],
          fun bs hm hdec => ?_⟩
  have hstep : kr.add_multipath_descriptor_validated d = kr.addBranchesValidated bs := by
    simp [KeyRing.add_multipath_descriptor_validated, hm, hdec]
  rw [hstep]
  exact addBranchesValidated_cases bs kr

/-- Witness for the amended C1: the single-descriptor rejection at a
concrete keyring, and the mid-batch duplicate failure on `krWithB2`. -/
theorem c1_add_multipath_descriptor_validated_amended_witness :
    (KeyRing.new Network.bitcoin).add_multipath_descriptor_validated dSingleA
        = (some KeyRingError.SingleDescriptorNotAllowed, KeyRing.new Network.bitcoin) ∧
    (((krWithB2.add_multipath_descriptor_validated dMulti).1 = none ∧
        (krWithB2.add_multipath_descriptor_validated dMulti).2.descriptors
            = insertBranches krWithB2.descriptors [branch1, branch2] ∧
        (krWithB2.add_multipath_descriptor_validated dMulti).2.network
            = krWithB2.network) ∨
      (∃ e n, (krWithB2.add_multipath_descriptor_validated dMulti).1 = some e ∧
        (e = KeyRingError.DuplicateDescriptor ∨ e = KeyRingError.AddressGeneration) ∧
        (krWithB2.add_multipath_descriptor_validated dMulti).2.descriptors
            = insertBranches krWithB2.descriptors ([branch1, branch2].take n) ∧
        (krWithB2.add_multipath_descriptor_validated dMulti).2.network
            = krWithB2.network)) :=
  ⟨(c1_add_multipath_descriptor_validated_amended (KeyRing.new Network.bitcoin)
      dSingleA).1 rfl,
   (c1_add_multipath_descriptor_validated_amended krWithB2 dMulti).2.2
      [branch1, branch2] rfl rfl⟩

/-- Union of a finite map with itself changes nothing. -/
theorem fmUnionSelf (s : DescMap K) : s ∪ s = s :=
  Finmap.ext_lookup fun x => by
    by_cases h : x ∈ s
    · exact Finmap.lookup_union_left h
    · exact Finmap.lookup_union_right h

/-- C2 counterexample: the entry `0 ↦ dSingleA` is present before merging
`csB`, but after the merge the descriptor stored at key 0 has changed —
`BTreeMap::extend` overwrites on key collision, so merge does not leave
every previously recorded `(keychain, descriptor)` entry unchanged. -/
theorem c2_merge_overwrites_counterexample :
    csA.descriptors.lookup 0 = some dSingleA ∧
    (csA.merge csB).descriptors.lookup 0 ≠ some dSingleA := by
  decide

/-- C2 amended: keyring changeset merge is idempotent under repeated merge
of the same delta and associative; it never removes a keychain key, leaves
every entry whose key the incoming delta does not carry unchanged, and
never clears a `some` network — but an entry whose key the incoming delta
does carry is overwritten with the incoming descriptor rather than
preserved. -/
theorem c2_merge_idempotent_assoc_amended (a b c : KChangeSet K) :
    (a.merge b).merge b = a.merge b ∧
    (a.merge b).merge c = a.merge (b.merge c) ∧
    (∀ k, k ∈ a.descriptors → k ∈ (a.merge b).descriptors) ∧
    (∀ k, k ∉ b.descriptors →
      (a.merge b).descriptors.lookup k = a.descriptors.lookup k) ∧
    (∀ n, a.network = some n → (a.merge b).network = some n) := by
  refine ⟨?_, ?_, ?_, ?_, ?_⟩
  · simp only [KChangeSet.merge]
    congr 1
    · cases a.network <;> cases b.network <;> rfl
    · rw [← Finmap.union_assoc, fmUnionSelf]
  · simp only [KChangeSet.merge]
    congr 1
    · cases a.network <;> cases b.network <;> cases c.network <;> rfl
    · exact (Finmap.union_assoc).symm
  · intro k hk
    simp only [KChangeSet.merge, Finmap.mem_union]
    exact Or.inr hk
  · intro k hk
    simp only [KChangeSet.merge]
    exact Finmap.lookup_union_right hk
  · intro n h
    simp [KChangeSet.merge, h]

/-- Witness for the amended C2: idempotence at the concrete overlapping
deltas `csA`, `csB`, and key preservation at key 0. -/
theorem c2_merge_idempotent_assoc_amended_witness :
    (csA.merge csB).merge csB = csA.merge csB ∧ 0 ∈ (csA.merge csB).descriptors :=
  ⟨(c2_merge_idempotent_assoc_amended csA csB csB).1,
   (c2_merge_idempotent_assoc_amended csA csB csB).2.2.1 0 (by decide)⟩

/-- C3: with a flat fee of 2000 on every transaction shape (in particular
the 2-input/2-output one) and candidates worth 100 000, 50 000 and 10 000
sats, `finish` for a 120 000 sat recipient selects exactly the two largest
UTXOs and adds exactly one change output of 28 000 sats; with only the
10 000 sat candidate it fails
`InsufficientFunds{required = 122000, available = 10000}`. -/
theorem c3_coin_selection (feeVb : Nat → Nat) (hfee : ∀ s, feeVb s = 2000) :
    TxBuilder.finish cfgC3 feeVb revealAlways [u100, u50, u10] =
      Except.ok
        ({ version := 2, lock_time := 0, inputs := [(1, 0), (2, 0)],
           outputs := [{ value := 120000, script_pubkey := 77 },
                       { value := 28000, script_pubkey := 88 }] },
         { sent := 120000, received := 0, fee := some 2000 }) ∧
    TxBuilder.finish cfgC3 feeVb revealAlways [u10] =
      Except.error (WalletError.TxBuilder
        (TxBuilderError.InsufficientFunds 122000 10000)) := by
  have h : feeVb = fun _ => 2000 := funext hfee
  subst h
  exact ⟨rfl, rfl⟩

/-- Witness for C3 at the constant fee function. -/
theorem c3_coin_selection_witness :
    TxBuilder.finish cfgC3 (fun _ => 2000) revealAlways [u100, u50, u10] =
      Except.ok
        ({ version := 2, lock_time := 0, inputs := [(1, 0), (2, 0)],
           outputs := [{ value := 120000, script_pubkey := 77 },
                       { value := 28000, script_pubkey := 88 }] },
         { sent := 120000, received := 0, fee := some 2000 }) ∧
    TxBuilder.finish cfgC3 (fun _ => 2000) revealAlways [u10] =
      Except.error (WalletError.TxBuilder
        (TxBuilderError.InsufficientFunds 122000 10000)) :=
  c3_coin_selection (fun _ => 2000) (fun _ => rfl)

/-- C6: in drain mode with candidates worth 100 000 and 50 000 sats and one
recipient, `finish` produces exactly one output worth 150 000 minus the
estimated fee (for the 2-input, 1-recipient shape the code prices), and in
drain mode `create_psbt` never emits more than the single drain output —
no change output exists. -/
theorem c6_drain_two_utxos (feeVb : Nat → Nat)
    (hfee : feeVb (estimate_tx_size 2 1) ≤ 150000) :
    TxBuilder.finish cfgC6 feeVb revealAlways [u100, u50] =
      Except.ok
        ({ version := 2, lock_time := 0, inputs := [(1, 0), (2, 0)],
           outputs := [{ value := 150000 - feeVb (estimate_tx_size 2 1),
                         script_pubkey := 77 }] },
         { sent := 150000 - feeVb (estimate_tx_size 2 1), received := 0,
           fee := some (feeVb (estimate_tx_size 2 1)) }) ∧
    (∀ (cfg : TxBuilderCfg) (rev : Nat → Option Script) (sel : List (LocalUtxo Nat)),
      cfg.drain_wallet = true → (create_psbt cfg feeVb rev sel).1.outputs.length ≤ 1) := by
  refine ⟨rfl, fun cfg rev sel hd => ?_⟩
  simp only [create_psbt, hd, if_true]
  cases h : cfg.recipients.head? <;> simp [h]

/-- Witness for C6 at fee rate pricing one sat per estimated byte. -/
theorem c6_drain_two_utxos_witness :
    TxBuilder.finish cfgC6 (fun s => s) revealAlways [u100, u50] =
      Except.ok
        ({ version := 2, lock_time := 0, inputs := [(1, 0), (2, 0)],
           outputs := [{ value := 150000 - estimate_tx_size 2 1,
                         script_pubkey := 77 }] },
         { sent := 150000 - estimate_tx_size 2 1, received := 0,
           fee := some (estimate_tx_size 2 1) }) :=
  (c6_drain_two_utxos (fun s => s) (by decide)).1

/-- C9: with the drain flag set and no recipients, `finish` does not fail
`NoRecipients`: given any non-empty candidate list it succeeds and builds a
transaction whose output list is empty (no recipient output and no change
output). The fee bound `hfee` confines the statement to the executions the
source completes: drain mode computes the details'
`sent = selected_value - estimated_fee` with `bitcoin::Amount` subtraction,
which panics when the estimated fee exceeds the selected value, and within
the bound the model's `Nat` subtraction coincides with it. -/
theorem c9_drain_no_recipients (cfg : TxBuilderCfg) (feeVb : Nat → Nat)
    (rev : K → Option Script) (candidates : List (LocalUtxo K))
    (hd : cfg.drain_wallet = true) (hr : cfg.recipients = [])
    (hne : candidates ≠ [])
    (hfee : feeVb (estimate_tx_size (sortDescByValue candidates).length
          cfg.recipients.length)
        ≤ ((sortDescByValue candidates).map fun u => u.value).sum) :
    TxBuilder.finish cfg feeVb rev candidates
        = Except.ok (create_psbt cfg feeVb rev (sortDescByValue candidates)) ∧
    (create_psbt cfg feeVb rev (sortDescByValue candidates)).1.outputs = [] := by
  constructor
  · cases candidates with
    | nil => exact absurd rfl hne
    | cons u rest => simp [TxBuilder.finish, select_coins, hd, hr]
  · simp [create_psbt, hd, hr]

/-- Witness for C9 at a concrete drain-only configuration. -/
theorem c9_drain_no_recipients_witness :
    TxBuilder.finish { recipients := [], drain_wallet := true } (fun s => s)
        revealAlways [u100]
      = Except.ok (create_psbt { recipients := [], drain_wallet := true } (fun s => s)
          revealAlways (sortDescByValue [u100])) ∧
    (create_psbt { recipients := [], drain_wallet := true } (fun s => s)
        revealAlways (sortDescByValue [u100])).1.outputs = [] :=
  c9_drain_no_recipients { recipients := [], drain_wallet := true } (fun s => s)
    revealAlways [u100] rfl rfl (by decide) (by decide)

/-- C7: `persist_to_sqlite` returns `Some` of the previously staged
changeset, resetting the stage to empty and touching nothing else, exactly
when the stage was non-empty and the transaction began, the write
succeeded and the commit succeeded; on every database error the wallet —
in particular its stage — is exactly what it was before the call; and with
an empty stage it returns `None` without issuing any write. -/
theorem c7_persist_to_sqlite_stage (w : Wallet K) (tb p c : Bool) :
    (∀ cs, (w.persist_to_sqlite tb p c).1 = Except.ok (some cs) →
      cs = w.stage ∧
      (w.persist_to_sqlite tb p c).2.1.stage = AggChangeSet.default ∧
      (w.persist_to_sqlite tb p c).2.1.keyring = w.keyring ∧
      w.stage.is_empty = false ∧ tb = true ∧ p = true ∧ c = true) ∧
    (w.stage.is_empty = false → tb = true → p = true → c = true →
      (w.persist_to_sqlite tb p c).1 = Except.ok (some w.stage) ∧
      (w.persist_to_sqlite tb p c).2.1.stage = AggChangeSet.default) ∧
    (∀ e, (w.persist_to_sqlite tb p c).1 = Except.error e →
      (w.persist_to_sqlite tb p c).2.1 = w) ∧
    (w.stage.is_empty = true → tb = true →
      (w.persist_to_sqlite tb p c).1 = Except.ok none ∧
      (w.persist_to_sqlite tb p c).2.1 = w ∧
      (w.persist_to_sqlite tb p c).2.2 = false) := by
  cases tb <;> cases p <;> cases c <;> cases hemp : w.stage.is_empty <;>
    simp_all [Wallet.persist_to_sqlite, AggChangeSet.take]

/-- Witness for C7: a fully successful commit of the non-empty stage of
`w0` drains it and returns the staged changeset. -/
theorem c7_persist_to_sqlite_stage_witness :
    (w0.persist_to_sqlite true true true).1 = Except.ok (some w0.stage) ∧
    (w0.persist_to_sqlite true true true).2.1.stage = AggChangeSet.default :=
  (c7_persist_to_sqlite_stage w0 true true true).2.1 (by decide) rfl rfl rfl

end MultiKeychain
